import Mathlib

/-!
# Verification of the job orchestration and audit core

Shallow embedding of the asynchronous job orchestration subsystem
(`app/infra/job_store.py`, `app/cgo/routes.py`, `app/a2a/routes.py`) and the
audit event bus / guardrail engine (`app/audit/event_bus.py`,
`app/audit/guardrails.py`).

Python dictionaries are modelled as insertion-ordered association lists
(`Dict`), with `dictInsert` implementing Python's `d[k] = v` (replace in
place when the key exists, append otherwise) and `dictGet` implementing
`d.get(k)`.  JSON-serialisable values are modelled by `Val`.  Asynchronous
functions are modelled as pure state transformers: `await` points are
sequential composition, real time and the random sleep in the A2A worker are
irrelevant to the verified properties and carry no state.
-/

/-- JSON-like values stored in job records, payloads and results. -/
inductive Val where
  | null : Val
  | str : String → Val
  | int : Int → Val
  | doc : List (String × Val) → Val

/-- A Python dict: insertion-ordered association list. -/
abbrev Dict := List (String × Val)

/-- Python `d.get(k)` / `d[k]` lookup: first binding wins (keys are unique
by construction since `dictInsert` replaces in place). -/
def dictGet (d : Dict) (k : String) : Option Val :=
  match d with
  | [] => none
  | (k', v) :: rest => if k' = k then some v else dictGet rest k

/-- Python `d[k] = v`: replace the value in place if the key exists,
otherwise append the new binding. -/
def dictInsert (d : Dict) (k : String) (v : Val) : Dict :=
  match d with
  | [] => [(k, v)]
  | (k', v') :: rest =>
      if k' = k then (k', v) :: rest else (k', v') :: dictInsert rest k v

/-- Python `d.get(k, default)` for string-valued keys; a non-string value is
returned as its default by the callers modelled here (cannot occur in the
flows below, where these keys are only ever written with strings). -/
def dictGetStr (d : Dict) (k : String) (default : String) : String :=
  match dictGet d k with
  | some (Val.str s) => s
  | _ => default

/-- Python `d.get(k, {})` for dict-valued keys. -/
def dictGetDoc (d : Dict) (k : String) : Dict :=
  match dictGet d k with
  | some (Val.doc x) => x
  | _ => []

/-- Python `d.get(k)` with `None` default. -/
def dictGetD (d : Dict) (k : String) : Val :=
  (dictGet d k).getD Val.null

/-! ## JobStore (`app/infra/job_store.py`)

A job record is a Python dict; the store maps job ids to records.  `get`
returns a copy (`dict(job)`), which in this pure model is the record itself.
-/

/-- State of `InMemoryJobStore`: the `_jobs` map. -/
abbrev Store := List (String × Dict)

/-- Map lookup in the `_jobs` dict. -/
def storeGet (st : Store) (job_id : String) : Option Dict :=
  match st with
  | [] => none
  | (k, v) :: rest => if k = job_id then some v else storeGet rest job_id

/-- Map update `self._jobs[job_id] = record`. -/
def storeSet (st : Store) (job_id : String) (record : Dict) : Store :=
  match st with
  | [] => [(job_id, record)]
  | (k, v) :: rest =>
      if k = job_id then (k, record) :: rest else (k, v) :: storeSet rest job_id record

namespace InMemoryJobStore

/-- `InMemoryJobStore.get`: `dict(job) if job is not None else None`. -/
def get (st : Store) (job_id : String) : Option Dict :=
  storeGet st job_id

/-- `InMemoryJobStore.set_status`:
`job = self._jobs.setdefault(job_id, {"payload": None}); job["status"] = status;
job["result"] = result`.  `setdefault` returns the existing record, or inserts
and returns `{"payload": None}` when the id is absent. -/
def set_status (st : Store) (job_id : String) (status : String)
    (result : Val := Val.null) : Store :=
  let job := match storeGet st job_id with
    | some j => j
    | none => [("payload", Val.null)]
  storeSet st job_id (dictInsert (dictInsert job "status" (Val.str status)) "result" result)

/-- `InMemoryJobStore.create`: unconditionally assigns
`{"id": job_id, "payload": dict(payload), "status": "pending", "result": None}`. -/
def create (st : Store) (job_id : String) (payload : Dict) : Store :=
  storeSet st job_id
    [("id", Val.str job_id), ("payload", Val.doc payload),
     ("status", Val.str "pending"), ("result", Val.null)]

end InMemoryJobStore

namespace RedisJobStore

/-- State of the Redis backend: the key/value pairs under the store's
namespace.  `json.dumps`/`json.loads` round-trip losslessly on the flat
records written here, so serialisation is modelled as the identity. -/
abbrev RStore := List (String × Dict)

/-- `RedisJobStore._key`: `f"{self._namespace}:{job_id}"`. -/
def key (ns job_id : String) : String :=
  ns ++ ":" ++ job_id

/-- Redis `GET` of the record at the namespaced key. -/
def get (ns : String) (st : RStore) (job_id : String) : Option Dict :=
  storeGet st (key ns job_id)

/-- `RedisJobStore.set_status`:
`job = await self.get(job_id) or {"id": job_id, "payload": None}` followed by
`job["status"] = status; job["result"] = result` and a `SET`. -/
def set_status (ns : String) (st : RStore) (job_id : String) (status : String)
    (result : Val := Val.null) : RStore :=
  let job := match get ns st job_id with
    | some j => j
    | none => [("id", Val.str job_id), ("payload", Val.null)]
  storeSet st (key ns job_id)
    (dictInsert (dictInsert job "status" (Val.str status)) "result" result)

/-- `RedisJobStore.create`: unconditionally `SET`s
`{"id": job_id, "payload": dict(payload), "status": "pending", "result": None}`. -/
def create (ns : String) (st : RStore) (job_id : String) (payload : Dict) : RStore :=
  storeSet st (key ns job_id)
    [("id", Val.str job_id), ("payload", Val.doc payload),
     ("status", Val.str "pending"), ("result", Val.null)]

end RedisJobStore

/-! ## CGO marketing-campaign route (`app/cgo/routes.py`)

The route and its background job run against the in-memory store.  Wall-clock
readings (`time.monotonic`, `perf_counter`) are external inputs, so the
measured duration is a parameter.  The unit of work
(`cgo_crew.kickoff`, reached through `_execute_marketing_campaign`) is a
parameter mapping the attempt number to either a result or the message of the
exception it raises. -/

/-- A call to `app.ops.alerts.send_alert(event, payload)`, with the payload
fields used by this route. -/
inductive Alert where
  | latency_slo_miss (job_id : String) (duration_sec threshold_sec : ℚ)
  | job_failed (job_id reason : String)

/-- Observable state threaded through the CGO route and its background job:
the job store plus logs of status writes, `record_cgo_job_status` metric
calls, `send_alert` calls, and `background_tasks.add_task` schedulings. -/
structure CgoSys where
  store : Store
  writes : List (String × String)
  metrics : List String
  alerts : List Alert
  scheduled : List String

/-- `job_store.create(job_id, payload)` plus the status write it performs
(`"pending"`), recorded in the write log. -/
def CgoSys.create (s : CgoSys) (job_id : String) (payload : Dict) : CgoSys :=
  { s with store := InMemoryJobStore.create s.store job_id payload,
           writes := s.writes ++ [(job_id, "pending")] }

/-- `job_store.set_status(job_id, status, result)`, recorded in the write log. -/
def CgoSys.set_status (s : CgoSys) (job_id status : String) (result : Val) : CgoSys :=
  { s with store := InMemoryJobStore.set_status s.store job_id status result,
           writes := s.writes ++ [(job_id, status)] }

/-- `_check_job_duration`: `send_alert("latency_slo_miss", {...})` iff the
measured duration strictly exceeds the threshold. -/
def check_job_duration (job_id : String) (duration threshold : ℚ) : List Alert :=
  if duration > threshold then [Alert.latency_slo_miss job_id duration threshold] else []

/-- The unit of work: attempt number ↦ result, or the message of the raised
exception. -/
abbrev Work := ℕ → Except String Val

/-- tenacity `@retry(stop=stop_after_attempt(n), reraise=True)` unrolled:
invoke the work at `attempt`; return the first success; with no retries left,
reraise the attempt's outcome.  Also counts invocations. -/
def retryFrom (w : Work) (attempt : ℕ) : ℕ → Except String Val × ℕ
  | 0 => (w attempt, 1)
  | more + 1 =>
      match w attempt with
      | Except.ok v => (Except.ok v, 1)
      | Except.error _ =>
          let r := retryFrom w (attempt + 1) more
          (r.1, r.2 + 1)

/-- `_execute_marketing_campaign`: the unit of work under
`@retry(stop=stop_after_attempt(3), wait=wait_exponential(), reraise=True)` —
attempt 1 with up to 2 further attempts. -/
def execute_marketing_campaign (w : Work) : Except String Val × ℕ :=
  retryFrom w 1 2

/-- Modelled from the spec: "retried up to a fixed attempt bound (default 3)
with exponential backoff between attempts" — the backoff schedule configured
by `wait_exponential()`; the waiting itself lives in the third-party tenacity
library, outside this repository, and does not influence any attempt's
outcome. -/
def waitExponential (attempt : ℕ) : ℚ :=
  2 ^ attempt

/-- `_run_marketing_campaign_job`: run the retried unit of work, persist the
terminal status, record metrics, send failure and SLO alerts.  Returns the
final state and the number of invocations of the unit of work. -/
def run_marketing_campaign_job (sys : CgoSys) (job_id : String) (w : Work)
    (duration threshold : ℚ) : CgoSys × ℕ :=
  let sys := { sys with metrics := sys.metrics ++ ["running"] }
  match execute_marketing_campaign w with
  | (Except.error e, cnt) =>
      let sys := sys.set_status job_id "failed" (Val.doc [("error", Val.str e)])
      let sys := { sys with
        metrics := sys.metrics ++ ["failed"],
        alerts := sys.alerts ++ [Alert.job_failed job_id e]
                    ++ check_job_duration job_id duration threshold }
      (sys, cnt)
  | (Except.ok v, cnt) =>
      let sys := sys.set_status job_id "done" v
      let sys := { sys with
        metrics := sys.metrics ++ ["done"],
        alerts := sys.alerts ++ check_job_duration job_id duration threshold }
      (sys, cnt)

/-- Response body and HTTP status returned by the route. -/
structure CgoResponse where
  httpStatus : ℕ
  job_id : String
  status : String
  result : Val

/-- Python truthiness of an optional string id (`None` and `""` are falsy):
used by the CGO route's `if requested_job_id:` /
`requested_job_id or str(uuid4())` and by the A2A route's
`if command.idempotency_key:` / `command.idempotency_key or str(uuid4())`. -/
def keyTruthy : Option String → Option String
  | none => none
  | some k => if k = "" then none else some k

/-- `payload.model_dump(exclude_none=True)` for `MarketingCampaignRequest`:
only `None` is dropped, so a falsy-but-present empty id is still dumped. -/
def cgoRequestDump : Option String → Dict
  | none => []
  | some rid => [("job_id", Val.str rid)]

/-- Fresh-submission tail of `run_marketing_campaign`: create the record, set
it `running`, record the `accepted` metric, schedule the background task and
answer `202 accepted`. -/
def run_marketing_campaign_fresh (sys : CgoSys) (requested : Option String)
    (job_id : String) : CgoSys × CgoResponse :=
  let sys := sys.create job_id
    [("type", Val.str "marketing_campaign"), ("payload", Val.doc (cgoRequestDump requested))]
  let sys := sys.set_status job_id "running" Val.null
  let sys := { sys with metrics := sys.metrics ++ ["accepted"],
                        scheduled := sys.scheduled ++ [job_id] }
  (sys, ⟨202, job_id, "accepted", Val.null⟩)

/-- `run_marketing_campaign` route handler: when the supplied job id is
truthy (`if requested_job_id:`) and its record exists, replay it with `200`
and its current status/result; otherwise submit afresh under
`requested_job_id or str(uuid4())` (`fresh` stands for `str(uuid4())`, and a
falsy id — `None` or `""` — is ignored in favour of the fresh uuid). -/
def run_marketing_campaign (sys : CgoSys) (requested : Option String)
    (fresh : String) : CgoSys × CgoResponse :=
  match keyTruthy requested with
  | some rid =>
      match InMemoryJobStore.get sys.store rid with
      | some job =>
          (sys, ⟨200, rid, dictGetStr job "status" "unknown", dictGetD job "result"⟩)
      | none => run_marketing_campaign_fresh sys requested rid
  | none => run_marketing_campaign_fresh sys requested fresh

/-- `get_job_status` route handler (`GET /jobs/{job_id}`): 404 when unknown. -/
def cgo_get_job_status (sys : CgoSys) (job_id : String) : Option CgoResponse :=
  match InMemoryJobStore.get sys.store job_id with
  | none => none
  | some job => some ⟨200, job_id, dictGetStr job "status" "unknown", dictGetD job "result"⟩

/-! ## A2A command route (`app/a2a/routes.py`)

Signature verification touches only headers and secrets, not the job
pipeline, and is omitted.  The random sleep inside `_run_a2a_job` has no
observable effect on the store. -/

/-- `A2ACommand` request model. -/
structure A2ACommand where
  source : String
  target : String
  command : String
  payload : Dict
  idempotency_key : Option String

/-- `command.model_dump(exclude_none=True)`: declaration-ordered fields,
dropping `idempotency_key` when it is `None`. -/
def a2aCommandDump (c : A2ACommand) : Dict :=
  [("source", Val.str c.source), ("target", Val.str c.target),
   ("command", Val.str c.command), ("payload", Val.doc c.payload)]
  ++ (match c.idempotency_key with
      | none => []
      | some k => [("idempotency_key", Val.str k)])

/-- Observable state threaded through the A2A route and its background job. -/
structure A2aSys where
  store : Store
  writes : List (String × String)
  metrics : List String
  scheduled : List (String × Dict)

/-- `job_store.create` on the A2A path, with its `"pending"` write logged. -/
def A2aSys.create (s : A2aSys) (job_id : String) (payload : Dict) : A2aSys :=
  { s with store := InMemoryJobStore.create s.store job_id payload,
           writes := s.writes ++ [(job_id, "pending")] }

/-- `job_store.set_status` on the A2A path, logged. -/
def A2aSys.set_status (s : A2aSys) (job_id status : String) (result : Val) : A2aSys :=
  { s with store := InMemoryJobStore.set_status s.store job_id status result,
           writes := s.writes ++ [(job_id, status)] }

/-- `_resolve_job`: pick the idempotency key when truthy (else the fresh
uuid) and look up an existing record only when a truthy key was supplied. -/
def resolve_job (st : Store) (c : A2ACommand) (fresh : String) :
    String × Option Dict :=
  match keyTruthy c.idempotency_key with
  | some k => (k, storeGet st k)
  | none => (fresh, none)

/-- `A2ACommandResult` body together with the HTTP status code. -/
structure A2aResponse where
  httpStatus : ℕ
  job_id : String
  status : String
  result : Val

/-- `_serialise_job`. -/
def serialise_job (job_id : String) (job : Dict) : A2aResponse :=
  ⟨200, job_id, dictGetStr job "status" "unknown", dictGetD job "result"⟩

/-- `_run_a2a_job`: set `running`, dispatch on the command name, and persist
the terminal status (`done` with the command's result, or `failed` with
`{"reason": str(exc)}` for an unsupported command). -/
def run_a2a_job (sys : A2aSys) (job_id : String) (payload : Dict) : A2aSys :=
  let command_payload := dictGetDoc payload "command"
  let command_name := dictGetStr command_payload "command" "unknown"
  let command_args := dictGetDoc command_payload "payload"
  let sys := sys.set_status job_id "running" Val.null
  let sys := { sys with metrics := sys.metrics ++ ["running"] }
  if command_name = "ping" then
    let sys := sys.set_status job_id "done"
      (Val.doc [("status", Val.str "pong"), ("echo", Val.doc command_args)])
    { sys with metrics := sys.metrics ++ ["done"] }
  else if command_name = "noop" then
    let sys := sys.set_status job_id "done" (Val.doc [("status", Val.str "noop")])
    { sys with metrics := sys.metrics ++ ["done"] }
  else
    let sys := sys.set_status job_id "failed"
      (Val.doc [("reason", Val.str ("Unsupported A2A command: " ++ command_name))])
    { sys with metrics := sys.metrics ++ ["failed"] }

/-- `submit_command` route handler: replay an existing record with `200`,
otherwise create the job, set it `accepted`, and schedule `_run_a2a_job`. -/
def submit_command (sys : A2aSys) (c : A2ACommand) (fresh : String) :
    A2aSys × A2aResponse :=
  match resolve_job sys.store c fresh with
  | (job_id, some existing) => (sys, serialise_job job_id existing)
  | (job_id, none) =>
      let payload := [("type", Val.str "a2a_command"),
                      ("command", Val.doc (a2aCommandDump c))]
      let sys := sys.create job_id payload
      let sys := sys.set_status job_id "accepted" Val.null
      let sys := { sys with metrics := sys.metrics ++ ["accepted"],
                            scheduled := sys.scheduled ++ [(job_id, payload)] }
      (sys, ⟨202, job_id, "accepted", Val.null⟩)

/-- `get_job_status` on the A2A router: 404 (`none`) when unknown. -/
def a2a_get_job_status (sys : A2aSys) (job_id : String) : Option A2aResponse :=
  match InMemoryJobStore.get sys.store job_id with
  | none => none
  | some job => some (serialise_job job_id job)

/-- Run the background tasks queued by `submit_command`, in order. -/
def runScheduledA2a (sys : A2aSys) : A2aSys :=
  sys.scheduled.foldl (fun s t => run_a2a_job s t.1 t.2) sys

/-! ## EventBus (`app/audit/event_bus.py`)

For the delivery-mechanics claims, events are abstracted to numeric ids and a
handler's body to its observable effect on the bus: returning normally,
raising (caught and logged by `publish`), or calling `EventBus.subscribe`
with a new handler.  `publish` snapshots `list(self._subscribers)` and then
invokes each handler of the snapshot in order. -/

namespace EventBus

/-- Observable effect of one handler invocation. -/
inductive HandlerAction where
  | ok
  | raiseErr
  | subscribeNew (newId : ℕ)

/-- Behaviour environment: what handler `h` does when invoked on event `e`. -/
abbrev HandlerEnv := ℕ → ℕ → HandlerAction

/-- Bus state: the `_subscribers` list plus logs of handler invocations
(`(handler, event)` in invocation order) and of exceptions caught by
`publish`. -/
structure BusState where
  subs : List ℕ
  deliveries : List (ℕ × ℕ)
  errorsLogged : List (ℕ × ℕ)

/-- `EventBus.subscribe`: append the handler. -/
def subscribe (st : BusState) (h : ℕ) : BusState :=
  { st with subs := st.subs ++ [h] }

/-- One iteration of the `for handler in handlers` loop in `publish`: invoke
the handler (recording the delivery), then apply its effect; a raising
handler is caught and logged, never aborting the loop. -/
def publishStep (env : HandlerEnv) (e : ℕ) (st : BusState) (h : ℕ) : BusState :=
  let st := { st with deliveries := st.deliveries ++ [(h, e)] }
  match env h e with
  | HandlerAction.ok => st
  | HandlerAction.raiseErr => { st with errorsLogged := st.errorsLogged ++ [(h, e)] }
  | HandlerAction.subscribeNew n => subscribe st n

/-- `EventBus.publish`: snapshot the subscriber list
(`handlers = list(self._subscribers)`), then invoke every handler of the
snapshot in order, returning only after all have been attempted. -/
def publish (env : HandlerEnv) (st : BusState) (e : ℕ) : BusState :=
  st.subs.foldl (publishStep env e) st

/-- A sequence of sequential `publish` calls. -/
def publishAll (env : HandlerEnv) (st : BusState) (es : List ℕ) : BusState :=
  es.foldl (publish env) st

end EventBus

/-! ## Guardrails (`app/audit/guardrails.py`)

`GuardrailViolation` subclasses `AuditEvent`; the subclass membership tested
by `isinstance(event, GuardrailViolation)` is modelled by the `isViolation`
flag, and the subclass fields carry their dataclass defaults on plain
events.  `created_at` is wall-clock time and is not modelled. -/

/-- `AuditEvent`, with the `GuardrailViolation` extension fields. -/
structure AuditEvent where
  name : String
  c_unit : String
  actor : String
  subject : String
  severity : String := "info"
  payload : Dict := []
  tags : List String := []
  isViolation : Bool := false
  guardrail_id : String := ""
  reason : String := ""

/-- `Guardrail` rule definition. -/
structure Guardrail where
  id : String
  description : String
  severity : String
  predicate : AuditEvent → Bool
  reason : AuditEvent → String := fun _ => ""

/-- The violation payload built by `Guardrail.evaluate`:
`{"event": event.name, **event.payload}` — a dict literal seeded with the
`event` key and then updated with the original payload's entries in order
(an `event` key already present in the payload therefore overwrites the
seeded one). -/
def mergedViolationPayload (e : AuditEvent) : Dict :=
  e.payload.foldl (fun d kv => dictInsert d kv.1 kv.2) [("event", Val.str e.name)]

/-- The violation payload asserted by the claim (spec §4.4): "the original
event's payload merged with `{event: original.name}`" — the original payload
updated so that `event` maps to the triggering event's name.  Stated from
the claim's words, for comparison against `mergedViolationPayload` (the
code's construction). -/
def claimMergedPayload (e : AuditEvent) : Dict :=
  dictInsert e.payload "event" (Val.str e.name)

/-- `Guardrail.evaluate`: `None` unless the predicate matches; otherwise a
`GuardrailViolation` carrying the triggering event's `c_unit`/`actor`/
`subject`, the guardrail's `severity`/`id`, the computed reason, and the
merged payload. -/
def Guardrail.evaluate (g : Guardrail) (e : AuditEvent) : Option AuditEvent :=
  if g.predicate e then
    some { name := "guardrail.violation", c_unit := e.c_unit, actor := e.actor,
           subject := e.subject, severity := g.severity,
           payload := mergedViolationPayload e, tags := [],
           isViolation := true, guardrail_id := g.id, reason := g.reason e }
  else
    none

/-- `GuardrailEngine.handle_event`: skip violations entirely; otherwise
evaluate every guardrail in order and publish each produced violation back
onto the bus.  Returns the published violations in publish order. -/
def handle_event (guardrails : List Guardrail) (e : AuditEvent) : List AuditEvent :=
  if e.isViolation then []
  else guardrails.filterMap (fun g => g.evaluate e)

/-! ## Status ordering and polling (`spec §3, §8`) -/

/-- Position of a status in the lifecycle order
`pending < accepted < running < {done, failed}`. -/
def statusRank (s : String) : ℕ :=
  if s = "pending" then 0
  else if s = "accepted" then 1
  else if s = "running" then 2
  else 3

/-- Terminal statuses. -/
def isTerminalStatus (s : String) : Bool :=
  s = "done" || s = "failed"

/-- A write trace is a strict forward chain: each consecutive write strictly
advances the rank and no write follows a terminal one. -/
def chainOK : List String → Bool
  | [] => true
  | [_] => true
  | s :: s' :: rest =>
      decide (statusRank s < statusRank s') && !isTerminalStatus s
        && chainOK (s' :: rest)

/-- Status a poller observes after the first `i` writes have landed: the
last of those writes (`none` before any write). -/
def observedStatus : List String → ℕ → Option String
  | _, 0 => none
  | [], _ => none
  | s :: rest, i + 1 =>
      match observedStatus rest i with
      | none => some s
      | some t => some t

/-- Rank of an observation (`none` ↦ 0). -/
def observedRank (tr : List String) (i : ℕ) : ℕ :=
  match observedStatus tr i with
  | none => 0
  | some s => statusRank s

/-- The statuses written for one job id, in write order. -/
def writesFor (writes : List (String × String)) (job_id : String) : List String :=
  (writes.filter (fun p => p.1 == job_id)).map (fun p => p.2)

/-! ## Composite flows: submit then run the scheduled background task -/

/-- Empty CGO system state. -/
def cgoInit : CgoSys := ⟨[], [], [], [], []⟩

/-- Run the background tasks queued by the CGO route, in order. -/
def runScheduledCgo (sys : CgoSys) (w : Work) (duration threshold : ℚ) : CgoSys :=
  sys.scheduled.foldl
    (fun s id => (run_marketing_campaign_job s id w duration threshold).1) sys

/-- Full CGO lifecycle of one fresh submission: route handler followed by the
scheduled background job. -/
def cgoFlow (job_id : String) (w : Work) (duration threshold : ℚ) : CgoSys :=
  runScheduledCgo (run_marketing_campaign cgoInit none job_id).1 w duration threshold

/-- Empty A2A system state. -/
def a2aInit : A2aSys := ⟨[], [], [], []⟩

/-- Full A2A lifecycle of one fresh submission. -/
def a2aFlow (c : A2ACommand) (fresh : String) : A2aSys :=
  runScheduledA2a (submit_command a2aInit c fresh).1

/-- The status a poller reads for a job (`job.get("status", "unknown")` on
the stored record), `none` when the id is unknown (HTTP 404). -/
def jobStatus (st : Store) (job_id : String) : Option String :=
  (storeGet st job_id).map (fun r => dictGetStr r "status" "unknown")

/-- The result a poller reads for a job (`job.get("result")`), `none` when
the id is unknown. -/
def jobResult (st : Store) (job_id : String) : Option Val :=
  (storeGet st job_id).map (fun r => dictGetD r "result")

/-- A named field of a job's result document (`none` when the job is
unknown, the result is not a document, or the field is absent). -/
def jobResultField (st : Store) (job_id field : String) : Option Val :=
  match jobResult st job_id with
  | some (Val.doc d) => dictGet d field
  | _ => none

/-- Whether an alert call is a `latency_slo_miss` alert. -/
def Alert.isLatencySloMiss : Alert → Bool
  | Alert.latency_slo_miss _ _ _ => true
  | _ => false

/-- Handler behaviours for the three-subscriber isolation scenario: the
second subscriber raises on every event, the others return normally. -/
def busThreeEnv : EventBus.HandlerEnv := fun h _ =>
  if h = 2 then EventBus.HandlerAction.raiseErr else EventBus.HandlerAction.ok

/-- Handler behaviours for the mid-publish subscription scenario: handler 1
subscribes handler 2 while event 1 is being fanned out. -/
def midSubscribeEnv : EventBus.HandlerEnv := fun h e =>
  if h = 1 && e = 1 then EventBus.HandlerAction.subscribeNew 2
  else EventBus.HandlerAction.ok

/-! ## Dictionary and store lemmas -/

theorem dictGet_dictInsert_self (d : Dict) (k : String) (v : Val) :
    dictGet (dictInsert d k v) k = some v := by
  induction d with
  | nil => simp [dictInsert, dictGet]
  | cons kv rest ih =>
      by_cases h : kv.1 = k
      · simp [dictInsert, h, dictGet]
      · simp [dictInsert, h, dictGet, ih]

theorem dictGet_dictInsert_ne (d : Dict) (k k' : String) (v : Val) (h : k' ≠ k) :
    dictGet (dictInsert d k' v) k = dictGet d k := by
  induction d with
  | nil => simp [dictInsert, dictGet, h]
  | cons kv rest ih =>
      by_cases hk : kv.1 = k'
      · simp [dictInsert, hk, dictGet, h]
      · simp [dictInsert, hk, dictGet, ih]

theorem storeGet_storeSet_self (st : Store) (k : String) (r : Dict) :
    storeGet (storeSet st k r) k = some r := by
  induction st with
  | nil => simp [storeSet, storeGet]
  | cons kv rest ih =>
      by_cases h : kv.1 = k
      · simp [storeSet, h, storeGet]
      · simp [storeSet, h, storeGet, ih]

theorem storeGet_storeSet_ne (st : Store) (k k' : String) (r : Dict) (h : k' ≠ k) :
    storeGet (storeSet st k' r) k = storeGet st k := by
  induction st with
  | nil => simp [storeSet, storeGet, h]
  | cons kv rest ih =>
      by_cases hk : kv.1 = k'
      · simp [storeSet, hk, storeGet, h]
      · simp [storeSet, hk, storeGet, ih]

/-- After `set_status`, the poller reads the written status. -/
theorem jobStatus_set_status (st : Store) (job_id s : String) (v : Val) :
    jobStatus (InMemoryJobStore.set_status st job_id s v) job_id = some s := by
  unfold InMemoryJobStore.set_status jobStatus
  cases storeGet st job_id <;>
    simp [storeGet_storeSet_self, dictGetStr,
          dictGet_dictInsert_ne _ "status" "result" _ (by decide),
          dictGet_dictInsert_self]

/-- After `set_status`, the poller reads the written result. -/
theorem jobResult_set_status (st : Store) (job_id s : String) (v : Val) :
    jobResult (InMemoryJobStore.set_status st job_id s v) job_id = some v := by
  unfold InMemoryJobStore.set_status jobResult
  cases storeGet st job_id <;>
    simp [storeGet_storeSet_self, dictGetD, dictGet_dictInsert_self]

/-! ## Monotone-observation lemmas -/

theorem observedStatus_nil (i : ℕ) : observedStatus [] i = none := by
  cases i <;> rfl

theorem observedStatus_cons_isSome (s : String) (rest : List String) (i : ℕ) :
    (observedStatus (s :: rest) (i + 1)).isSome := by
  cases h : observedStatus rest i <;> simp [observedStatus, h]

theorem observedStatus_cons_succ (s : String) (rest : List String) (i : ℕ) :
    observedStatus (s :: rest) (i + 1)
      = match observedStatus rest i with
        | none => some s
        | some t => some t := rfl

theorem chainOK_cons_cons (s t : String) (r : List String) :
    chainOK (s :: t :: r) = true ↔
      statusRank s < statusRank t ∧ isTerminalStatus s = false
        ∧ chainOK (t :: r) = true := by
  simp [chainOK, Bool.and_eq_true, decide_eq_true_iff, and_assoc]

theorem chainOK_tail (s : String) (rest : List String)
    (h : chainOK (s :: rest) = true) : chainOK rest = true := by
  cases rest with
  | nil => rfl
  | cons t r => exact ((chainOK_cons_cons s t r).1 h).2.2

/-- Once any status has been observed for a chain starting at `s`, the
observation ranks at least `s`. -/
theorem statusRank_le_observedRank (rest : List String) (s : String)
    (h : chainOK (s :: rest) = true) (i : ℕ) :
    statusRank s ≤ observedRank (s :: rest) (i + 1) := by
  induction rest generalizing s i with
  | nil => cases i <;> simp [observedRank, observedStatus]
  | cons t rest' ih =>
      obtain ⟨hst, _, htail⟩ := (chainOK_cons_cons s t rest').1 h
      cases i with
      | zero => simp [observedRank, observedStatus]
      | succ i' =>
          have h2 := ih t htail i'
          cases hu : observedStatus (t :: rest') (i' + 1) with
          | none =>
              have := observedStatus_cons_isSome t rest' i'
              rw [hu] at this
              simp at this
          | some u =>
              have hl : observedRank (s :: t :: rest') (i' + 1 + 1) = statusRank u := by
                unfold observedRank
                rw [observedStatus_cons_succ, hu]
              have hr : observedRank (t :: rest') (i' + 1) = statusRank u := by
                simp [observedRank, hu]
              rw [hl]
              rw [hr] at h2
              omega

/-- One poll step never observes a lower rank, along a forward chain. -/
theorem observedRank_le_succ (tr : List String) (h : chainOK tr = true) (i : ℕ) :
    observedRank tr i ≤ observedRank tr (i + 1) := by
  induction tr generalizing i with
  | nil => simp [observedRank, observedStatus_nil]
  | cons s rest ih =>
      have htail : chainOK rest = true := chainOK_tail s rest h
      cases i with
      | zero => simp [observedRank, observedStatus]
      | succ j =>
          cases hj : observedStatus rest j with
          | none =>
              cases rest with
              | nil =>
                  simp [observedRank, observedStatus, observedStatus_nil]
              | cons t rest' =>
                  obtain ⟨hst, _, htl⟩ := (chainOK_cons_cons s t rest').1 h
                  cases j with
                  | zero =>
                      have h2 := statusRank_le_observedRank rest' t htl 0
                      have hl : observedRank (s :: t :: rest') (0 + 1) = statusRank s := by
                        simp [observedRank, observedStatus]
                      have hmid : observedRank (s :: t :: rest') (0 + 1 + 1)
                          = observedRank (t :: rest') (0 + 1) := by
                        cases hv : observedStatus (t :: rest') (0 + 1) with
                        | none =>
                            have := observedStatus_cons_isSome t rest' 0
                            rw [hv] at this; simp at this
                        | some u => simp [observedRank, observedStatus, hv]
                      rw [hl, hmid]
                      omega
                  | succ j' =>
                      have := observedStatus_cons_isSome t rest' j'
                      rw [hj] at this
                      simp at this
          | some u =>
              cases rest with
              | nil => rw [observedStatus_nil] at hj; simp at hj
              | cons t rest' =>
                  cases hj1 : observedStatus (t :: rest') (j + 1) with
                  | none =>
                      have := observedStatus_cons_isSome t rest' j
                      rw [hj1] at this; simp at this
                  | some u' =>
                      have h2 := ih htail j
                      have hl : observedRank (s :: t :: rest') (j + 1) = statusRank u := by
                        unfold observedRank
                        rw [observedStatus_cons_succ, hj]
                      have hr : observedRank (s :: t :: rest') (j + 1 + 1) = statusRank u' := by
                        unfold observedRank
                        rw [observedStatus_cons_succ, hj1]
                      rw [hl, hr]
                      rw [show observedRank (t :: rest') j = statusRank u by
                            simp [observedRank, hj],
                          show observedRank (t :: rest') (j + 1) = statusRank u' by
                            simp [observedRank, hj1]] at h2
                      exact h2

/-- Along a forward chain of writes, polling observes a monotonically
advancing status. -/
theorem observedRank_mono (tr : List String) (h : chainOK tr = true)
    {i j : ℕ} (hij : i ≤ j) : observedRank tr i ≤ observedRank tr j :=
  monotone_nat_of_le_succ (observedRank_le_succ tr h) hij

/-! ## EventBus lemmas -/

namespace EventBus

theorem publishStep_deliveries (env : HandlerEnv) (e : ℕ) (st : BusState) (h : ℕ) :
    (publishStep env e st h).deliveries = st.deliveries ++ [(h, e)] := by
  unfold publishStep
  cases env h e <;> rfl

theorem foldl_publishStep_deliveries (env : HandlerEnv) (e : ℕ) (hs : List ℕ)
    (st : BusState) :
    (hs.foldl (publishStep env e) st).deliveries
      = st.deliveries ++ hs.map (fun h => (h, e)) := by
  induction hs generalizing st with
  | nil => simp
  | cons h rest ih =>
      rw [List.foldl_cons, ih, publishStep_deliveries]
      simp

/-- `publish` delivers the event to exactly the subscribers present when the
publish began, in registration order, whatever the handlers do. -/
theorem publish_deliveries (env : HandlerEnv) (st : BusState) (e : ℕ) :
    (publish env st e).deliveries = st.deliveries ++ st.subs.map (fun h => (h, e)) :=
  foldl_publishStep_deliveries env e st.subs st

/-- Closed form of one publish under `busThreeEnv` to subscribers `[1,2,3]`. -/
theorem publish_busThree (dl el : List (ℕ × ℕ)) (e : ℕ) :
    publish busThreeEnv ⟨[1, 2, 3], dl, el⟩ e
      = ⟨[1, 2, 3], dl ++ [(1, e), (2, e), (3, e)], el ++ [(2, e)]⟩ := by
  simp [publish, publishStep, busThreeEnv]

/-- Closed form of a publish sequence under `busThreeEnv`. -/
theorem publishAll_busThree (es : List ℕ) (dl el : List (ℕ × ℕ)) :
    publishAll busThreeEnv ⟨[1, 2, 3], dl, el⟩ es
      = ⟨[1, 2, 3], dl ++ es.flatMap (fun e => [(1, e), (2, e), (3, e)]),
         el ++ es.map (fun e => (2, e))⟩ := by
  induction es generalizing dl el with
  | nil => simp [publishAll]
  | cons e rest ih =>
      rw [publishAll, List.foldl_cons, publish_busThree]
      rw [show rest.foldl (publish busThreeEnv)
            (⟨[1, 2, 3], dl ++ [(1, e), (2, e), (3, e)], el ++ [(2, e)]⟩ : BusState)
          = publishAll busThreeEnv
              ⟨[1, 2, 3], dl ++ [(1, e), (2, e), (3, e)], el ++ [(2, e)]⟩ rest from rfl]
      rw [ih]
      simp

end EventBus

/-! ## Retry lemmas -/

theorem retryFrom_count_le (w : Work) (a n : ℕ) :
    (retryFrom w a n).2 ≤ n + 1 := by
  induction n generalizing a with
  | zero => simp [retryFrom]
  | succ m ih =>
      unfold retryFrom
      cases w a with
      | ok v => simp
      | error e =>
          have := ih (a + 1)
          simp
          omega

theorem retryFrom_first_ok (w : Work) (v : Val) (h : w 1 = Except.ok v) :
    retryFrom w 1 2 = (Except.ok v, 1) := by
  unfold retryFrom
  rw [h]

theorem retryFrom_all_fail (w : Work) (e1 e2 : String)
    (h1 : w 1 = Except.error e1) (h2 : w 2 = Except.error e2) :
    retryFrom w 1 2 = (w 3, 3) := by
  unfold retryFrom
  rw [h1]
  unfold retryFrom
  rw [h2]
  unfold retryFrom
  rfl

/-! ## Flow trace lemmas -/

/-- The status writes performed by a fresh CGO submission followed by its
background job: `pending`, `running`, then the terminal status determined by
the retried unit of work. -/
theorem cgoFlow_writes (job_id : String) (w : Work) (d t : ℚ) :
    (cgoFlow job_id w d t).writes
      = [(job_id, "pending"), (job_id, "running"),
         (job_id, match (execute_marketing_campaign w).1 with
                  | Except.error _ => "failed"
                  | Except.ok _ => "done")] := by
  unfold cgoFlow runScheduledCgo run_marketing_campaign run_marketing_campaign_fresh
  rcases h : execute_marketing_campaign w with ⟨res, cnt⟩
  rcases res with e | v <;>
    simp [run_marketing_campaign_job, h, CgoSys.create, CgoSys.set_status, cgoInit,
          keyTruthy]

/-- The status writes performed by a fresh A2A submission followed by its
background job: `pending`, `accepted`, `running`, then the terminal status
determined by the command dispatch. -/
theorem a2aFlow_writes (c : A2ACommand) (fresh : String) :
    (a2aFlow c fresh).writes
      = (let jid := (keyTruthy c.idempotency_key).getD fresh
         [(jid, "pending"), (jid, "accepted"), (jid, "running"),
          (jid, if c.command = "ping" then "done"
                else if c.command = "noop" then "done" else "failed")]) := by
  unfold a2aFlow runScheduledA2a submit_command resolve_job a2aInit
  cases hk : keyTruthy c.idempotency_key with
  | none =>
      by_cases hp : c.command = "ping"
      · simp [run_a2a_job, A2aSys.create, A2aSys.set_status, a2aCommandDump,
              dictGetDoc, dictGetStr, dictGet, hp]
      · by_cases hn : c.command = "noop"
        · simp [run_a2a_job, A2aSys.create, A2aSys.set_status, a2aCommandDump,
                dictGetDoc, dictGetStr, dictGet, hp, hn]
        · simp [run_a2a_job, A2aSys.create, A2aSys.set_status, a2aCommandDump,
                dictGetDoc, dictGetStr, dictGet, hp, hn]
  | some k =>
      by_cases hp : c.command = "ping"
      · simp [run_a2a_job, A2aSys.create, A2aSys.set_status, a2aCommandDump,
              dictGetDoc, dictGetStr, dictGet, storeGet, hp]
      · by_cases hn : c.command = "noop"
        · simp [run_a2a_job, A2aSys.create, A2aSys.set_status, a2aCommandDump,
                dictGetDoc, dictGetStr, dictGet, storeGet, hp, hn]
        · simp [run_a2a_job, A2aSys.create, A2aSys.set_status, a2aCommandDump,
                dictGetDoc, dictGetStr, dictGet, storeGet, hp, hn]

/-! ## Claim theorems -/

/-- **C1.** The claim states that `set_status` on a never-created id fails
with `NotFound` on both JobStore implementations and leaves the store
unchanged.  Evaluating both implementations on an empty store at the
never-created id `"ghost"` shows the opposite: each silently upserts a
record (the in-memory store via `setdefault`, the Redis store via the
`or {...}` default), the store is changed, and a poller subsequently reads
the upserted status — neither implementation has a `NotFound` path. -/
theorem C1_set_status_upserts_on_unknown_id :
    InMemoryJobStore.set_status [] "ghost" "done" Val.null
        = [("ghost", [("payload", Val.null), ("status", Val.str "done"),
                      ("result", Val.null)])]
    ∧ RedisJobStore.set_status "jobs" [] "ghost" "done" Val.null
        = [("jobs:ghost", [("id", Val.str "ghost"), ("payload", Val.null),
                           ("status", Val.str "done"), ("result", Val.null)])]
    ∧ InMemoryJobStore.set_status [] "ghost" "done" Val.null ≠ []
    ∧ jobStatus (InMemoryJobStore.set_status [] "ghost" "done" Val.null) "ghost"
        = some "done" :=
  ⟨rfl, rfl,
    by
      intro h
      rw [show InMemoryJobStore.set_status [] "ghost" "done" Val.null
            = [("ghost", [("payload", Val.null), ("status", Val.str "done"),
                          ("result", Val.null)])] from rfl] at h
      exact List.noConfusion h,
    rfl⟩

/-- **C4 (counterexample).** The claim states that a second
`create(id, payload)` fails with `AlreadyExists` and leaves the existing
record unchanged.  On the concrete store holding job `"j"` in status
`running`, a second `create` raises nothing and replaces the record: the
stored status falls back to `pending` and the stored payload is the second
payload, on both implementations. -/
theorem C4_create_overwrites_counterexample :
    (let st2 := InMemoryJobStore.set_status
        (InMemoryJobStore.create [] "j" [("k", Val.int 1)]) "j" "running" Val.null
     let st3 := InMemoryJobStore.create st2 "j" [("k", Val.int 2)]
     jobStatus st2 "j" = some "running" ∧ jobStatus st3 "j" = some "pending"
       ∧ storeGet st3 "j" ≠ storeGet st2 "j")
    ∧ (let rst2 := RedisJobStore.set_status "jobs"
        (RedisJobStore.create "jobs" [] "j" [("k", Val.int 1)]) "j" "running" Val.null
       let rst3 := RedisJobStore.create "jobs" rst2 "j" [("k", Val.int 2)]
       RedisJobStore.get "jobs" rst2 "j"
           = some [("id", Val.str "j"), ("payload", Val.doc [("k", Val.int 1)]),
                   ("status", Val.str "running"), ("result", Val.null)]
       ∧ RedisJobStore.get "jobs" rst3 "j"
           = some [("id", Val.str "j"), ("payload", Val.doc [("k", Val.int 2)]),
                   ("status", Val.str "pending"), ("result", Val.null)]) := by
  refine ⟨⟨rfl, rfl, ?_⟩, rfl, rfl⟩
  intro h
  have hst : jobStatus (InMemoryJobStore.create
      (InMemoryJobStore.set_status
        (InMemoryJobStore.create [] "j" [("k", Val.int 1)]) "j" "running" Val.null)
      "j" [("k", Val.int 2)]) "j"
      = jobStatus (InMemoryJobStore.set_status
        (InMemoryJobStore.create [] "j" [("k", Val.int 1)]) "j" "running" Val.null) "j" := by
    unfold jobStatus
    rw [h]
  rw [show jobStatus (InMemoryJobStore.create
      (InMemoryJobStore.set_status
        (InMemoryJobStore.create [] "j" [("k", Val.int 1)]) "j" "running" Val.null)
      "j" [("k", Val.int 2)]) "j" = some "pending" from rfl] at hst
  rw [show jobStatus (InMemoryJobStore.set_status
        (InMemoryJobStore.create [] "j" [("k", Val.int 1)]) "j" "running" Val.null) "j"
      = some "running" from rfl] at hst
  exact absurd hst (by decide)

/-- **C4 (amended).** `create(id, payload)` never fails: for any prior store
contents it unconditionally (re)initializes the record for `id` to
`{id, payload, status: pending, result: null}` — in particular a second
`create` for an existing id silently reinitializes the record instead of
failing with `AlreadyExists`; for an absent id this is exactly the claimed
fresh initialization with status `pending` and result `null`. -/
theorem C4_create_unconditionally_initializes (st : Store)
    (rst : RedisJobStore.RStore) (ns job_id : String) (payload : Dict) :
    storeGet (InMemoryJobStore.create st job_id payload) job_id
      = some [("id", Val.str job_id), ("payload", Val.doc payload),
              ("status", Val.str "pending"), ("result", Val.null)]
    ∧ RedisJobStore.get ns (RedisJobStore.create ns rst job_id payload) job_id
      = some [("id", Val.str job_id), ("payload", Val.doc payload),
              ("status", Val.str "pending"), ("result", Val.null)] :=
  ⟨storeGet_storeSet_self st job_id _, storeGet_storeSet_self rst _ _⟩

/-- **C3.** On both job pipelines the statuses written to the JobStore for a
job form a strict forward chain in the order
`pending < accepted < running < {done, failed}` with no write after a
terminal one (for any outcome of the unit of work and any submitted
command), and consequently any pair of polls `i ≤ j` observes a
monotonically advancing status. -/
theorem C3_monotonic_status_transitions (job_id : String) (w : Work) (d t : ℚ)
    (c : A2ACommand) (fresh : String) (i j : ℕ) (hij : i ≤ j) :
    (chainOK (writesFor (cgoFlow job_id w d t).writes job_id) = true
      ∧ observedRank (writesFor (cgoFlow job_id w d t).writes job_id) i
          ≤ observedRank (writesFor (cgoFlow job_id w d t).writes job_id) j)
    ∧ (chainOK (writesFor (a2aFlow c fresh).writes
          ((keyTruthy c.idempotency_key).getD fresh)) = true
      ∧ observedRank (writesFor (a2aFlow c fresh).writes
            ((keyTruthy c.idempotency_key).getD fresh)) i
          ≤ observedRank (writesFor (a2aFlow c fresh).writes
              ((keyTruthy c.idempotency_key).getD fresh)) j) := by
  have hcgo : chainOK (writesFor (cgoFlow job_id w d t).writes job_id) = true := by
    rw [cgoFlow_writes]
    rcases (execute_marketing_campaign w).1 with e | v <;>
      · simp only [writesFor, List.filter, beq_self_eq_true, List.map]
        decide
  have ha2a : chainOK (writesFor (a2aFlow c fresh).writes
      ((keyTruthy c.idempotency_key).getD fresh)) = true := by
    rw [a2aFlow_writes]
    by_cases hp : c.command = "ping"
    · simp only [hp, writesFor, List.filter, beq_self_eq_true, List.map, if_true]
      decide
    · by_cases hn : c.command = "noop"
      · simp only [hp, hn, writesFor, List.filter, beq_self_eq_true, List.map,
                   if_false, if_true]
        decide
      · simp only [hp, hn, writesFor, List.filter, beq_self_eq_true, List.map,
                   if_false]
        decide
  exact ⟨⟨hcgo, observedRank_mono _ hcgo hij⟩, ⟨ha2a, observedRank_mono _ ha2a hij⟩⟩

/-- Witness for C3: concrete job `"J"` with a succeeding unit of work, and a
concrete `ping` A2A command, polled at positions `1 ≤ 2`. -/
theorem C3_monotonic_status_transitions_witness :
    (1 : ℕ) ≤ 2
    ∧ ((chainOK (writesFor (cgoFlow "J" (fun _ => Except.ok Val.null) 0 0).writes "J") = true
        ∧ observedRank (writesFor (cgoFlow "J" (fun _ => Except.ok Val.null) 0 0).writes "J") 1
            ≤ observedRank (writesFor (cgoFlow "J" (fun _ => Except.ok Val.null) 0 0).writes "J") 2)
      ∧ (chainOK (writesFor (a2aFlow ⟨"s", "t", "ping", [], none⟩ "K").writes
            ((keyTruthy (none : Option String)).getD "K")) = true
        ∧ observedRank (writesFor (a2aFlow ⟨"s", "t", "ping", [], none⟩ "K").writes
              ((keyTruthy (none : Option String)).getD "K")) 1
            ≤ observedRank (writesFor (a2aFlow ⟨"s", "t", "ping", [], none⟩ "K").writes
                ((keyTruthy (none : Option String)).getD "K")) 2)) :=
  ⟨by decide,
   C3_monotonic_status_transitions "J" (fun _ => Except.ok Val.null) 0 0
     ⟨"s", "t", "ping", [], none⟩ "K" 1 2 (by decide)⟩

/-- **C5.** The unit of work is retried up to 3 attempts, only when the
attempt itself raises: exhausting all 3 attempts persists `failed` with
`{error: <final error message>}` after exactly 3 invocations; failing twice
and succeeding on the third persists `done` after exactly 3 invocations; a
first-attempt success is never re-invoked; for every unit of work the job
ends in a terminal status recorded in the store (the exception never escapes
to the scheduler) after at most 3 invocations; and the configured backoff
schedule is exponential (doubling). -/
theorem C5_retry_policy (sys sys2 : CgoSys) (id id2 : String) (wf wr : Work)
    (d t : ℚ) (e1 e2 e3 f1 f2 : String) (v : Val)
    (h1 : wf 1 = Except.error e1) (h2 : wf 2 = Except.error e2)
    (h3 : wf 3 = Except.error e3)
    (g1 : wr 1 = Except.error f1) (g2 : wr 2 = Except.error f2)
    (g3 : wr 3 = Except.ok v) :
    ((run_marketing_campaign_job sys id wf d t).2 = 3
      ∧ jobStatus (run_marketing_campaign_job sys id wf d t).1.store id = some "failed"
      ∧ jobResult (run_marketing_campaign_job sys id wf d t).1.store id
          = some (Val.doc [("error", Val.str e3)]))
    ∧ ((run_marketing_campaign_job sys2 id2 wr d t).2 = 3
      ∧ jobStatus (run_marketing_campaign_job sys2 id2 wr d t).1.store id2 = some "done"
      ∧ jobResult (run_marketing_campaign_job sys2 id2 wr d t).1.store id2 = some v)
    ∧ (∀ w0 : Work, ∀ v0 : Val, w0 1 = Except.ok v0 →
        (run_marketing_campaign_job sys id w0 d t).2 = 1)
    ∧ (∀ w0 : Work, (run_marketing_campaign_job sys id w0 d t).2 ≤ 3
        ∧ (jobStatus (run_marketing_campaign_job sys id w0 d t).1.store id = some "done"
            ∨ jobStatus (run_marketing_campaign_job sys id w0 d t).1.store id
                = some "failed"))
    ∧ (∀ a : ℕ, waitExponential (a + 1) = 2 * waitExponential a) := by
  have hx : execute_marketing_campaign wf = (Except.error e3, 3) := by
    unfold execute_marketing_campaign
    rw [retryFrom_all_fail wf e1 e2 h1 h2, h3]
  have hy : execute_marketing_campaign wr = (Except.ok v, 3) := by
    unfold execute_marketing_campaign
    rw [retryFrom_all_fail wr f1 f2 g1 g2, g3]
  refine ⟨?_, ?_, ?_, ?_, ?_⟩
  · simp [run_marketing_campaign_job, hx, CgoSys.set_status,
          jobStatus_set_status, jobResult_set_status]
  · simp [run_marketing_campaign_job, hy, CgoSys.set_status,
          jobStatus_set_status, jobResult_set_status]
  · intro w0 v0 h0
    have hz : execute_marketing_campaign w0 = (Except.ok v0, 1) := by
      unfold execute_marketing_campaign
      exact retryFrom_first_ok w0 v0 h0
    simp [run_marketing_campaign_job, hz]
  · intro w0
    constructor
    · rcases hz : execute_marketing_campaign w0 with ⟨res, cnt⟩
      have := retryFrom_count_le w0 1 2
      rw [show retryFrom w0 1 2 = execute_marketing_campaign w0 from rfl, hz] at this
      rcases res with e | v0 <;> simp [run_marketing_campaign_job, hz] <;> omega
    · rcases hz : execute_marketing_campaign w0 with ⟨res, cnt⟩
      rcases res with e | v0
      · right
        simp [run_marketing_campaign_job, hz, CgoSys.set_status, jobStatus_set_status]
      · left
        simp [run_marketing_campaign_job, hz, CgoSys.set_status, jobStatus_set_status]
  · intro a
    simp [waitExponential, pow_succ]
    ring

/-- Witness for C5: a unit of work raising `"boom"` on every attempt, and one
succeeding only on attempt 3, on the empty system. -/
theorem C5_retry_policy_witness :
    ((fun _ => Except.error "boom" : Work) 1 = Except.error "boom")
    ∧ ((fun _ => Except.error "boom" : Work) 2 = Except.error "boom")
    ∧ ((fun _ => Except.error "boom" : Work) 3 = Except.error "boom")
    ∧ ((fun n => if n = 3 then Except.ok (Val.str "ok")
          else Except.error "boom" : Work) 1 = Except.error "boom")
    ∧ ((fun n => if n = 3 then Except.ok (Val.str "ok")
          else Except.error "boom" : Work) 2 = Except.error "boom")
    ∧ ((fun n => if n = 3 then Except.ok (Val.str "ok")
          else Except.error "boom" : Work) 3 = Except.ok (Val.str "ok"))
    ∧ (((run_marketing_campaign_job cgoInit "J"
          (fun _ => Except.error "boom") 0 0).2 = 3
      ∧ jobStatus (run_marketing_campaign_job cgoInit "J"
          (fun _ => Except.error "boom") 0 0).1.store "J" = some "failed"
      ∧ jobResult (run_marketing_campaign_job cgoInit "J"
          (fun _ => Except.error "boom") 0 0).1.store "J"
          = some (Val.doc [("error", Val.str "boom")]))
    ∧ ((run_marketing_campaign_job cgoInit "K"
          (fun n => if n = 3 then Except.ok (Val.str "ok")
            else Except.error "boom") 0 0).2 = 3
      ∧ jobStatus (run_marketing_campaign_job cgoInit "K"
          (fun n => if n = 3 then Except.ok (Val.str "ok")
            else Except.error "boom") 0 0).1.store "K" = some "done"
      ∧ jobResult (run_marketing_campaign_job cgoInit "K"
          (fun n => if n = 3 then Except.ok (Val.str "ok")
            else Except.error "boom") 0 0).1.store "K" = some (Val.str "ok"))
    ∧ (∀ w0 : Work, ∀ v0 : Val, w0 1 = Except.ok v0 →
        (run_marketing_campaign_job cgoInit "J" w0 0 0).2 = 1)
    ∧ (∀ w0 : Work, (run_marketing_campaign_job cgoInit "J" w0 0 0).2 ≤ 3
        ∧ (jobStatus (run_marketing_campaign_job cgoInit "J" w0 0 0).1.store "J"
              = some "done"
            ∨ jobStatus (run_marketing_campaign_job cgoInit "J" w0 0 0).1.store "J"
                = some "failed"))
    ∧ (∀ a : ℕ, waitExponential (a + 1) = 2 * waitExponential a)) :=
  ⟨rfl, rfl, rfl, rfl, rfl, rfl,
   C5_retry_policy cgoInit cgoInit "J" "K"
     (fun _ => Except.error "boom")
     (fun n => if n = 3 then Except.ok (Val.str "ok") else Except.error "boom")
     0 0 "boom" "boom" "boom" "boom" "boom" (Val.str "ok")
     rfl rfl rfl rfl rfl rfl⟩

/-- **C6.** For every unit of work (success or failure path alike), the
background job emits exactly one `latency_slo_miss` alert — carrying the job
id, the measured duration and the configured threshold — when the duration
strictly exceeds the threshold, and zero such alerts otherwise: the
`latency_slo_miss` alerts added by one job run are `[latency_slo_miss id d t]`
if `d > t` and `[]` if not. -/
theorem C6_slo_alerting (sys : CgoSys) (id : String) (w : Work) (d t : ℚ) :
    ((run_marketing_campaign_job sys id w d t).1.alerts.drop
        sys.alerts.length).filter Alert.isLatencySloMiss
      = (if d > t then [Alert.latency_slo_miss id d t] else []) := by
  rcases hz : execute_marketing_campaign w with ⟨res, cnt⟩
  rcases res with e | v <;>
    · simp only [run_marketing_campaign_job, hz, CgoSys.set_status,
                 check_job_duration, List.append_assoc, List.drop_left]
      by_cases hd : d > t <;>
        simp [hd, Alert.isLatencySloMiss]

theorem busThree_sees_first (es : List ℕ) :
    ((es.flatMap (fun ev => [(1, ev), (2, ev), (3, ev)])).filter
        (fun p => p.1 == 1)).map Prod.snd = es := by
  induction es with
  | nil => rfl
  | cons e rest ih =>
      rw [List.flatMap_cons, List.filter_append, List.map_append, ih]
      rfl

theorem busThree_sees_third (es : List ℕ) :
    ((es.flatMap (fun ev => [(1, ev), (2, ev), (3, ev)])).filter
        (fun p => p.1 == 3)).map Prod.snd = es := by
  induction es with
  | nil => rfl
  | cons e rest ih =>
      rw [List.flatMap_cons, List.filter_append, List.map_append, ih]
      rfl

/-- **C7.** `publish` invokes every registered subscriber in registration
order and returns only after all have been attempted, whatever the handlers
do; and in the three-subscriber scenario where the second raises on every
event, every published event is still delivered to all three (in order),
each exception is caught and logged individually, and the first and third
subscribers observe the full published sequence with no drops and no early
termination. -/
theorem C7_subscriber_isolation (env : EventBus.HandlerEnv)
    (st : EventBus.BusState) (e : ℕ) (es : List ℕ) :
    ((EventBus.publish env st e).deliveries
        = st.deliveries ++ st.subs.map (fun h => (h, e)))
    ∧ (EventBus.publishAll busThreeEnv ⟨[1, 2, 3], [], []⟩ es).deliveries
        = es.flatMap (fun ev => [(1, ev), (2, ev), (3, ev)])
    ∧ (EventBus.publishAll busThreeEnv ⟨[1, 2, 3], [], []⟩ es).errorsLogged
        = es.map (fun ev => (2, ev))
    ∧ ((EventBus.publishAll busThreeEnv ⟨[1, 2, 3], [], []⟩ es).deliveries.filter
          (fun p => p.1 == 1)).map Prod.snd = es
    ∧ ((EventBus.publishAll busThreeEnv ⟨[1, 2, 3], [], []⟩ es).deliveries.filter
          (fun p => p.1 == 3)).map Prod.snd = es := by
  refine ⟨EventBus.publish_deliveries env st e, ?_, ?_, ?_, ?_⟩
  · rw [EventBus.publishAll_busThree]
    simp
  · rw [EventBus.publishAll_busThree]
    simp
  · rw [EventBus.publishAll_busThree]
    simpa using busThree_sees_first es
  · rw [EventBus.publishAll_busThree]
    simpa using busThree_sees_third es

/-- **C10.** `publish` delivers the event to exactly the handlers subscribed
at the moment the publish began, in that order — whatever the handlers do
during the fan-out; in the concrete scenario where handler 1 subscribes
handler 2 while event 1 is being published, handler 2 does not receive the
in-flight event 1, is registered afterwards, and observes exactly the
subsequently published event 2. -/
theorem C10_publish_snapshot_semantics (env : EventBus.HandlerEnv)
    (st : EventBus.BusState) (e : ℕ) :
    ((EventBus.publish env st e).deliveries
        = st.deliveries ++ st.subs.map (fun h => (h, e)))
    ∧ (EventBus.publish midSubscribeEnv ⟨[1], [], []⟩ 1).deliveries = [(1, 1)]
    ∧ (EventBus.publish midSubscribeEnv ⟨[1], [], []⟩ 1).subs = [1, 2]
    ∧ (EventBus.publish midSubscribeEnv
        (EventBus.publish midSubscribeEnv ⟨[1], [], []⟩ 1) 2).deliveries
        = [(1, 1), (1, 2), (2, 2)]
    ∧ ((EventBus.publish midSubscribeEnv
          (EventBus.publish midSubscribeEnv ⟨[1], [], []⟩ 1) 2).deliveries.filter
            (fun p => p.1 == 2)).map Prod.snd = [2] :=
  ⟨EventBus.publish_deliveries env st e, rfl, rfl, rfl, rfl⟩

/-- **C2.** When a submission supplies a (truthy, i.e. nonempty — a falsy id
is treated as absent by both routes) job id whose record already exists,
both submission operations return HTTP 200 with the existing record's
current status and result, leave the whole system state unchanged (in
particular scheduling no background task, hence not invoking the unit of
work) — for any existing record, including one still `running`; and
submitting the same caller-chosen id twice on the CGO route schedules
exactly one background invocation: the first submission appends one task and
the second replays with 200/`running` leaving the state unchanged. -/
theorem C2_idempotent_submission
    (sysC : CgoSys) (sysA : A2aSys) (idc ida : String) (jobc joba : Dict)
    (c : A2ACommand) (freshC freshA : String) (sys0 : CgoSys) (fid g2 : String)
    (hidc : idc ≠ "")
    (hC : storeGet sysC.store idc = some jobc)
    (hkey : keyTruthy c.idempotency_key = some ida)
    (hA : storeGet sysA.store ida = some joba)
    (hfid : fid ≠ "")
    (h0 : storeGet sys0.store fid = none) :
    (run_marketing_campaign sysC (some idc) freshC
        = (sysC, ⟨200, idc, dictGetStr jobc "status" "unknown", dictGetD jobc "result"⟩))
    ∧ (submit_command sysA c freshA = (sysA, serialise_job ida joba))
    ∧ ((run_marketing_campaign sys0 (some fid) fid).1.scheduled
          = sys0.scheduled ++ [fid]
      ∧ run_marketing_campaign (run_marketing_campaign sys0 (some fid) fid).1
            (some fid) g2
          = ((run_marketing_campaign sys0 (some fid) fid).1,
             ⟨200, fid, "running", Val.null⟩)) := by
  refine ⟨?_, ?_, ?_, ?_⟩
  · simp [run_marketing_campaign, keyTruthy, hidc, InMemoryJobStore.get, hC]
  · simp [submit_command, resolve_job, hkey, hA]
  · simp [run_marketing_campaign, keyTruthy, hfid, InMemoryJobStore.get, h0,
          run_marketing_campaign_fresh, CgoSys.create, CgoSys.set_status]
  · have e1 : run_marketing_campaign sys0 (some fid) fid
        = run_marketing_campaign_fresh sys0 (some fid) fid := by
      simp [run_marketing_campaign, keyTruthy, hfid, InMemoryJobStore.get, h0]
    rw [e1]
    have hrec : storeGet (run_marketing_campaign_fresh sys0 (some fid) fid).1.store fid
        = some (dictInsert (dictInsert
            [("id", Val.str fid),
             ("payload", Val.doc [("type", Val.str "marketing_campaign"),
                                  ("payload", Val.doc [("job_id", Val.str fid)])]),
             ("status", Val.str "pending"), ("result", Val.null)]
            "status" (Val.str "running")) "result" Val.null) := by
      simp [run_marketing_campaign_fresh, CgoSys.set_status, CgoSys.create,
            InMemoryJobStore.set_status, InMemoryJobStore.create, cgoRequestDump,
            storeGet_storeSet_self]
    simp [run_marketing_campaign, keyTruthy, hfid, InMemoryJobStore.get, hrec,
          dictInsert, dictGetStr, dictGetD, dictGet]

/-- Witness for C2: a store holding job `"j1"` still in status `running`,
replayed on both routes, and a double submission of the fresh id `"j2"`. -/
theorem C2_idempotent_submission_witness :
    ("j1" : String) ≠ ""
    ∧ ("j2" : String) ≠ ""
    ∧ storeGet (⟨[("j1", [("id", Val.str "j1"), ("payload", Val.doc []),
        ("status", Val.str "running"), ("result", Val.null)])], [], [], [], []⟩
          : CgoSys).store "j1"
        = some [("id", Val.str "j1"), ("payload", Val.doc []),
                ("status", Val.str "running"), ("result", Val.null)]
    ∧ keyTruthy (some "j1") = some "j1"
    ∧ storeGet (⟨[("j1", [("id", Val.str "j1"), ("payload", Val.doc []),
        ("status", Val.str "running"), ("result", Val.null)])], [], [], []⟩
          : A2aSys).store "j1"
        = some [("id", Val.str "j1"), ("payload", Val.doc []),
                ("status", Val.str "running"), ("result", Val.null)]
    ∧ storeGet cgoInit.store "j2" = none
    ∧ ((run_marketing_campaign
          ⟨[("j1", [("id", Val.str "j1"), ("payload", Val.doc []),
              ("status", Val.str "running"), ("result", Val.null)])], [], [], [], []⟩
          (some "j1") "g1"
        = (⟨[("j1", [("id", Val.str "j1"), ("payload", Val.doc []),
              ("status", Val.str "running"), ("result", Val.null)])], [], [], [], []⟩,
           ⟨200, "j1",
            dictGetStr [("id", Val.str "j1"), ("payload", Val.doc []),
              ("status", Val.str "running"), ("result", Val.null)] "status" "unknown",
            dictGetD [("id", Val.str "j1"), ("payload", Val.doc []),
              ("status", Val.str "running"), ("result", Val.null)] "result"⟩))
      ∧ (submit_command
            ⟨[("j1", [("id", Val.str "j1"), ("payload", Val.doc []),
                ("status", Val.str "running"), ("result", Val.null)])], [], [], []⟩
            ⟨"s", "t", "ping", [], some "j1"⟩ "g3"
          = (⟨[("j1", [("id", Val.str "j1"), ("payload", Val.doc []),
                ("status", Val.str "running"), ("result", Val.null)])], [], [], []⟩,
             serialise_job "j1" [("id", Val.str "j1"), ("payload", Val.doc []),
                ("status", Val.str "running"), ("result", Val.null)]))
      ∧ ((run_marketing_campaign cgoInit (some "j2") "j2").1.scheduled
            = cgoInit.scheduled ++ ["j2"]
        ∧ run_marketing_campaign (run_marketing_campaign cgoInit (some "j2") "j2").1
              (some "j2") "g4"
            = ((run_marketing_campaign cgoInit (some "j2") "j2").1,
               ⟨200, "j2", "running", Val.null⟩))) :=
  ⟨by decide, by decide, rfl, rfl, rfl, rfl,
   C2_idempotent_submission
     ⟨[("j1", [("id", Val.str "j1"), ("payload", Val.doc []),
         ("status", Val.str "running"), ("result", Val.null)])], [], [], [], []⟩
     ⟨[("j1", [("id", Val.str "j1"), ("payload", Val.doc []),
         ("status", Val.str "running"), ("result", Val.null)])], [], [], []⟩
     "j1" "j1"
     [("id", Val.str "j1"), ("payload", Val.doc []),
      ("status", Val.str "running"), ("result", Val.null)]
     [("id", Val.str "j1"), ("payload", Val.doc []),
      ("status", Val.str "running"), ("result", Val.null)]
     ⟨"s", "t", "ping", [], some "j1"⟩ "g1" "g3" cgoInit "j2" "g4"
     (by decide) rfl rfl rfl (by decide) rfl⟩

/-- **C9 (counterexample).** Submitting `{command: "unknown"}` and running
the job to terminal yields status `failed`, but the result document is
`{"reason": "Unsupported A2A command: unknown"}`: it has no `error` field at
all (the message also reads "Unsupported A2A command", not "Unsupported
command"), so the claim's asserted result shape is false on this input. -/
theorem C9_unknown_command_counterexample :
    jobStatus (a2aFlow ⟨"src", "tgt", "unknown", [], none⟩ "J").store "J"
        = some "failed"
    ∧ jobResult (a2aFlow ⟨"src", "tgt", "unknown", [], none⟩ "J").store "J"
        = some (Val.doc [("reason", Val.str "Unsupported A2A command: unknown")])
    ∧ jobResultField (a2aFlow ⟨"src", "tgt", "unknown", [], none⟩ "J").store "J" "error"
        = none
    ∧ jobResultField (a2aFlow ⟨"src", "tgt", "unknown", [], none⟩ "J").store "J" "error"
        ≠ some (Val.str "Unsupported command: unknown") :=
  ⟨rfl, rfl, rfl,
    by
      intro h
      rw [show jobResultField (a2aFlow ⟨"src", "tgt", "unknown", [], none⟩ "J").store
            "J" "error" = none from rfl] at h
      exact Option.noConfusion h⟩

/-- **C9 (amended).** Submitting a command whose name is not supported
yields, after the background job runs to terminal, status `failed` with a
result document whose `reason` field equals
`"Unsupported A2A command: <name>"` — and the polling route returns exactly
that document with HTTP 200. -/
theorem C9_unknown_command_failure_message (src tgt cmd : String) (p : Dict)
    (fresh : String) (hp : cmd ≠ "ping") (hn : cmd ≠ "noop") :
    jobStatus (a2aFlow ⟨src, tgt, cmd, p, none⟩ fresh).store fresh = some "failed"
    ∧ jobResultField (a2aFlow ⟨src, tgt, cmd, p, none⟩ fresh).store fresh "reason"
        = some (Val.str ("Unsupported A2A command: " ++ cmd))
    ∧ a2a_get_job_status (a2aFlow ⟨src, tgt, cmd, p, none⟩ fresh) fresh
        = some ⟨200, fresh, "failed",
                Val.doc [("reason", Val.str ("Unsupported A2A command: " ++ cmd))]⟩ := by
  refine ⟨?_, ?_, ?_⟩ <;>
    simp [a2aFlow, runScheduledA2a, submit_command, resolve_job, a2aInit, keyTruthy,
          run_a2a_job, A2aSys.create, A2aSys.set_status, a2aCommandDump,
          InMemoryJobStore.create, InMemoryJobStore.set_status, InMemoryJobStore.get,
          dictGetDoc, dictGetStr, dictGet, dictInsert, dictGetD, hp, hn,
          storeGet_storeSet_self, jobStatus, jobResult, jobResultField,
          a2a_get_job_status, serialise_job, storeGet, storeSet]

/-- Witness for C9 (amended): the concrete unsupported command `"unknown"`. -/
theorem C9_unknown_command_failure_message_witness :
    ("unknown" : String) ≠ "ping" ∧ ("unknown" : String) ≠ "noop"
    ∧ (jobStatus (a2aFlow ⟨"s", "t", "unknown", [], none⟩ "J").store "J" = some "failed"
      ∧ jobResultField (a2aFlow ⟨"s", "t", "unknown", [], none⟩ "J").store "J" "reason"
          = some (Val.str ("Unsupported A2A command: " ++ "unknown"))
      ∧ a2a_get_job_status (a2aFlow ⟨"s", "t", "unknown", [], none⟩ "J") "J"
          = some ⟨200, "J", "failed",
                  Val.doc [("reason",
                    Val.str ("Unsupported A2A command: " ++ "unknown"))]⟩) :=
  ⟨by decide, by decide,
   C9_unknown_command_failure_message "s" "t" "unknown" [] "J"
     (by decide) (by decide)⟩

theorem dictGet_eq_none_of_not_mem (ps : Dict) (k : String)
    (h : k ∉ ps.map Prod.fst) : dictGet ps k = none := by
  induction ps with
  | nil => rfl
  | cons kv rest ih =>
      simp only [List.map_cons, List.mem_cons, not_or] at h
      rw [show dictGet (kv :: rest) k
            = if kv.1 = k then some kv.2 else dictGet rest k from rfl]
      rw [if_neg (fun hh => h.1 hh.symm)]
      exact ih h.2

/-- Folding Python `d[k] = v` updates over a duplicate-free dict `ps` into a
seed dict: lookups find `ps`'s binding when present, else the seed's. -/
theorem dictGet_foldl_dictInsert (ps : Dict) (d : Dict) (k : String)
    (hnd : (ps.map Prod.fst).Nodup) :
    dictGet (ps.foldl (fun acc kv => dictInsert acc kv.1 kv.2) d) k
      = match dictGet ps k with
        | some v => some v
        | none => dictGet d k := by
  induction ps generalizing d with
  | nil => rfl
  | cons kv rest ih =>
      rcases kv with ⟨k0, v0⟩
      simp only [List.map_cons, List.nodup_cons] at hnd
      obtain ⟨hk0, hrest⟩ := hnd
      rw [List.foldl_cons, ih _ hrest]
      by_cases hk : k0 = k
      · subst hk
        rw [dictGet_eq_none_of_not_mem rest k0 hk0]
        rw [show dictGet ((k0, v0) :: rest) k0
              = if k0 = k0 then some v0 else dictGet rest k0 from rfl]
        rw [if_pos rfl, dictGet_dictInsert_self]
      · rw [show dictGet ((k0, v0) :: rest) k
              = if k0 = k then some v0 else dictGet rest k from rfl]
        rw [if_neg hk, dictGet_dictInsert_ne d k k0 v0 hk]

theorem filterMap_eq_map_filter {α β : Type} (f : α → Option β) (p : α → Bool)
    (F : α → β) (hf : ∀ a, f a = if p a = true then some (F a) else none)
    (l : List α) : l.filterMap f = (l.filter p).map F := by
  induction l with
  | nil => rfl
  | cons a rest ih =>
      cases hp : p a
      · simp [List.filterMap_cons, List.filter_cons, hf, hp, ih]
      · simp [List.filterMap_cons, List.filter_cons, hf, hp, ih]

theorem filterMap_evaluate (gs : List Guardrail) (e : AuditEvent) :
    gs.filterMap (fun g => g.evaluate e)
      = (gs.filter (fun g => g.predicate e)).map (fun g =>
          { name := "guardrail.violation", c_unit := e.c_unit, actor := e.actor,
            subject := e.subject, severity := g.severity,
            payload := mergedViolationPayload e, tags := [], isViolation := true,
            guardrail_id := g.id, reason := g.reason e }) :=
  filterMap_eq_map_filter _ _ _ (fun _ => rfl) gs

/-- **C8 (counterexample).** The claim asserts the violation payload equals
"the original event's payload merged with `{event: original.name}`", i.e.
the `event` key carries the triggering event's name.  On an event whose own
payload already binds `event` (here to `"boom"`), the code's dict literal
`{"event": event.name, **event.payload}` lets the original payload win: the
produced violation's payload maps `event` to `"boom"`, not to the event name
`"job.failed"`, so the claimed payload equality is false at this input. -/
theorem C8_violation_payload_counterexample :
    ((Guardrail.mk "X" "desc" "high" (fun e => e.name == "job.failed")
        (fun _ => "r")).evaluate
      { name := "job.failed", c_unit := "core.jobs", actor := "svc",
        subject := "job-42", payload := [("event", Val.str "boom")] }).map
        AuditEvent.payload
      = some [("event", Val.str "boom")]
    ∧ claimMergedPayload
        { name := "job.failed", c_unit := "core.jobs", actor := "svc",
          subject := "job-42", payload := [("event", Val.str "boom")] }
      = [("event", Val.str "job.failed")]
    ∧ ((Guardrail.mk "X" "desc" "high" (fun e => e.name == "job.failed")
        (fun _ => "r")).evaluate
      { name := "job.failed", c_unit := "core.jobs", actor := "svc",
        subject := "job-42", payload := [("event", Val.str "boom")] }).map
        AuditEvent.payload
      ≠ some (claimMergedPayload
        { name := "job.failed", c_unit := "core.jobs", actor := "svc",
          subject := "job-42", payload := [("event", Val.str "boom")] }) := by
  refine ⟨rfl, rfl, ?_⟩
  intro h
  rw [show ((Guardrail.mk "X" "desc" "high" (fun e => e.name == "job.failed")
        (fun _ => "r")).evaluate
      { name := "job.failed", c_unit := "core.jobs", actor := "svc",
        subject := "job-42", payload := [("event", Val.str "boom")] }).map
        AuditEvent.payload = some [("event", Val.str "boom")] from rfl] at h
  rw [show claimMergedPayload
        { name := "job.failed", c_unit := "core.jobs", actor := "svc",
          subject := "job-42", payload := [("event", Val.str "boom")] }
      = [("event", Val.str "job.failed")] from rfl] at h
  have h2 := Option.some.inj h
  have h3 : dictGet [("event", Val.str "boom")] "event"
      = dictGet [("event", Val.str "job.failed")] "event" := by rw [h2]
  have h4 : some (Val.str "boom") = some (Val.str "job.failed") := h3
  have h5 := Option.some.inj h4
  injection h5 with h6
  exact absurd h6 (by decide)

/-- **C8 (amended).** For every non-violation event with duplicate-free
payload keys, each guardrail whose predicate matches independently produces
exactly one violation — no short-circuiting — carrying the triggering
event's `c_unit`, `actor` and `subject`, the guardrail's id and severity,
the reason computed by its reason function, and a payload equal to
`{event: original.name}` updated with the original payload's entries (so an
`event` key of the original payload takes precedence; every other key is
looked up unchanged); and events that are themselves violations are never
re-evaluated. -/
theorem C8_guardrail_violations (gs : List Guardrail) (e : AuditEvent)
    (hv : e.isViolation = false) (hnd : (e.payload.map Prod.fst).Nodup) :
    handle_event gs e
      = (gs.filter (fun g => g.predicate e)).map (fun g =>
          { name := "guardrail.violation", c_unit := e.c_unit, actor := e.actor,
            subject := e.subject, severity := g.severity,
            payload := mergedViolationPayload e, tags := [], isViolation := true,
            guardrail_id := g.id, reason := g.reason e })
    ∧ (dictGet (mergedViolationPayload e) "event"
        = match dictGet e.payload "event" with
          | some v => some v
          | none => some (Val.str e.name))
    ∧ (∀ k, k ≠ "event" → dictGet (mergedViolationPayload e) k = dictGet e.payload k)
    ∧ (∀ e' : AuditEvent, e'.isViolation = true → handle_event gs e' = []) := by
  refine ⟨?_, ?_, ?_, ?_⟩
  · rw [show handle_event gs e
          = if e.isViolation then [] else gs.filterMap (fun g => g.evaluate e) from rfl,
        hv]
    simpa using filterMap_evaluate gs e
  · rw [show mergedViolationPayload e
          = e.payload.foldl (fun acc kv => dictInsert acc kv.1 kv.2)
              [("event", Val.str e.name)] from rfl,
        dictGet_foldl_dictInsert e.payload _ "event" hnd]
    cases dictGet e.payload "event" <;> rfl
  · intro k hk
    rw [show mergedViolationPayload e
          = e.payload.foldl (fun acc kv => dictInsert acc kv.1 kv.2)
              [("event", Val.str e.name)] from rfl,
        dictGet_foldl_dictInsert e.payload _ k hnd]
    cases hg : dictGet e.payload k
    · rw [show dictGet [("event", Val.str e.name)] k
            = if "event" = k then some (Val.str e.name) else none from rfl,
          if_neg (fun hh => hk hh.symm)]
    · rfl
  · intro e' hv'
    rw [show handle_event gs e'
          = if e'.isViolation then [] else gs.filterMap (fun g => g.evaluate e') from rfl,
        hv']
    rfl

/-- Witness for C8 (amended): one matching guardrail `"X"` of severity
`high` against a `job.failed` event with payload `{error: "boom"}`. -/
theorem C8_guardrail_violations_witness :
    ({ name := "job.failed", c_unit := "core.jobs", actor := "svc",
       subject := "job-42", severity := "warn",
       payload := [("error", Val.str "boom")] } : AuditEvent).isViolation = false
    ∧ (([("error", Val.str "boom")] : Dict).map Prod.fst).Nodup
    ∧ (handle_event
          [Guardrail.mk "X" "d" "high" (fun e => e.name == "job.failed")
            (fun _ => "boom happened")]
          { name := "job.failed", c_unit := "core.jobs", actor := "svc",
            subject := "job-42", severity := "warn",
            payload := [("error", Val.str "boom")] }
        = (([Guardrail.mk "X" "d" "high" (fun e => e.name == "job.failed")
              (fun _ => "boom happened")]).filter (fun g => g.predicate
                { name := "job.failed", c_unit := "core.jobs", actor := "svc",
                  subject := "job-42", severity := "warn",
                  payload := [("error", Val.str "boom")] })).map (fun g =>
            { name := "guardrail.violation", c_unit := "core.jobs", actor := "svc",
              subject := "job-42", severity := g.severity,
              payload := mergedViolationPayload
                { name := "job.failed", c_unit := "core.jobs", actor := "svc",
                  subject := "job-42", severity := "warn",
                  payload := [("error", Val.str "boom")] },
              tags := [], isViolation := true, guardrail_id := g.id,
              reason := g.reason
                { name := "job.failed", c_unit := "core.jobs", actor := "svc",
                  subject := "job-42", severity := "warn",
                  payload := [("error", Val.str "boom")] } })
      ∧ (dictGet (mergedViolationPayload
            { name := "job.failed", c_unit := "core.jobs", actor := "svc",
              subject := "job-42", severity := "warn",
              payload := [("error", Val.str "boom")] }) "event"
          = match dictGet [("error", Val.str "boom")] "event" with
            | some v => some v
            | none => some (Val.str "job.failed"))
      ∧ (∀ k, k ≠ "event" →
          dictGet (mergedViolationPayload
            { name := "job.failed", c_unit := "core.jobs", actor := "svc",
              subject := "job-42", severity := "warn",
              payload := [("error", Val.str "boom")] }) k
            = dictGet [("error", Val.str "boom")] k)
      ∧ (∀ e' : AuditEvent, e'.isViolation = true →
          handle_event
            [Guardrail.mk "X" "d" "high" (fun e => e.name == "job.failed")
              (fun _ => "boom happened")] e' = [])) :=
  ⟨rfl, by decide,
   C8_guardrail_violations
     [Guardrail.mk "X" "d" "high" (fun e => e.name == "job.failed")
       (fun _ => "boom happened")]
     { name := "job.failed", c_unit := "core.jobs", actor := "svc",
       subject := "job-42", severity := "warn",
       payload := [("error", Val.str "boom")] }
     rfl (by decide)⟩

